import Mathlib

set_option maxHeartbeats 1000000
set_option maxRecDepth 8000

/-! Shallow embedding of the PNJ valuation engine core: baseline metrics,
store-KPI scenario model, store-driven revenue path builder, DCF (FCFF)
engine and blended valuation combiner. Monetary amounts are embedded as
exact rationals; the store-KPI scenario model is embedded over the reals
because the source raises the revenue ratio to a real operating-leverage
exponent. -/

/-- Source helper: clamp(x, lo, hi) = Math.min(hi, Math.max(lo, x)). -/
def clamp {α : Type} [LinearOrderedField α] (x lo hi : α) : α :=
  min hi (max lo x)

/-- Source: planEPSVND(planNPAT_bn, shares) - plan EPS in VND/share,
0 when shares is not positive. -/
def planEPSVND (planNPAT_bn shares : ℚ) : ℚ :=
  if shares > 0 then planNPAT_bn * 1e9 / shares else 0

/-- Source: priceFromPE(epsVND, pe). -/
def priceFromPE (epsVND pe : ℚ) : ℚ := epsVND * pe

/-- Source: netCashBn(cash_bn, htm_bn, borrow_bn). -/
def netCashBn (cash_bn htm_bn borrow_bn : ℚ) : ℚ := cash_bn + htm_bn - borrow_bn

/-- Source: bvpsVND(totalEquity_bn, shares) - book value per share,
0 when shares is not positive. -/
def bvpsVND (totalEquity_bn shares : ℚ) : ℚ :=
  if shares > 0 then totalEquity_bn * 1e9 / shares else 0

/-- Source type DCFInputs. -/
structure DCFInputs where
  rev2025_bn : ℚ
  cagr : ℚ
  revSeries_bn : Option (List ℚ)
  ebitMargin : ℚ
  tax : ℚ
  roc : ℚ
  wacc : ℚ
  gT : ℚ
  netCash_bn : ℚ
  shares : ℚ

/-- Per-year row returned by dcfFCFF. -/
structure DCFRow where
  y : ℕ
  t : ℕ
  rev : ℚ
  g : ℚ
  ebit : ℚ
  nopat : ℚ
  reinvRate : ℚ
  fcff : ℚ
  disc : ℚ
  pv : ℚ

/-- All-zero row used as the default for list indexing. -/
def defaultDCFRow : DCFRow := ⟨0, 0, 0, 0, 0, 0, 0, 0, 0, 0⟩

/-- Source: rocSafe = Math.max(i.roc, 1e-6) inside dcfFCFF. -/
def rocSafe (i : DCFInputs) : ℚ := max i.roc 1e-6

/-- Source: spread = Math.max(0.001, i.wacc - i.gT) inside dcfFCFF. -/
def dcfSpread (i : DCFInputs) : ℚ := max 0.001 (i.wacc - i.gT)

/-- Source: reinvTerm = clamp(i.gT / rocSafe, 0, 0.95) inside dcfFCFF. -/
def dcfReinvTerm (i : DCFInputs) : ℚ := clamp (i.gT / rocSafe i) 0 0.95

/-- The fallback CAGR-generated revenue path
years.map((_, idx) => rev2025_bn * Math.pow(1 + cagr, idx + 1)). -/
def cagrPath (rev2025_bn cagr : ℚ) : List ℚ :=
  (List.range 5).map (fun idx => rev2025_bn * (1 + cagr) ^ (idx + 1))

/-- Source: the resolved revenue series of dcfFCFF - the explicit path when
present with exactly 5 entries, the CAGR-generated path otherwise. -/
def dcfRevSeries (i : DCFInputs) : List ℚ :=
  match i.revSeries_bn with
  | some l => if l.length = 5 then l else cagrPath i.rev2025_bn i.cagr
  | none => cagrPath i.rev2025_bn i.cagr

/-- Source: the body of the years.map callback in dcfFCFF for index idx
(year 2026 + idx, discount period t = idx + 1). -/
def dcfRow (i : DCFInputs) (revSeries : List ℚ) (idx : ℕ) : DCFRow :=
  let t := idx + 1
  let rev := revSeries.getD idx 0
  let prevRev := if idx = 0 then i.rev2025_bn else revSeries.getD (idx - 1) i.rev2025_bn
  let g := if prevRev > 0 then rev / prevRev - 1 else i.cagr
  let ebit := rev * i.ebitMargin
  let nopat := ebit * (1 - i.tax)
  let reinvRate := clamp (g / rocSafe i) 0 0.95
  let fcff := nopat * (1 - reinvRate)
  let disc := 1 / (1 + i.wacc) ^ t
  let pv := fcff * disc
  ⟨2025 + t, t, rev, g, ebit, nopat, reinvRate, fcff, disc, pv⟩

/-- Source: the terminal-year cash flow fcff2031 =
nopat2031 * (1 - reinvTerm) built from the last explicit row. -/
def dcfTerminalFCFF (i : DCFInputs) (rows : List DCFRow) : ℚ :=
  let rev2030 := (rows.getD (rows.length - 1) defaultDCFRow).rev
  let rev2031 := rev2030 * (1 + i.gT)
  let ebit2031 := rev2031 * i.ebitMargin
  let nopat2031 := ebit2031 * (1 - i.tax)
  nopat2031 * (1 - dcfReinvTerm i)

/-- Result record of dcfFCFF. -/
structure DCFResult where
  rows : List DCFRow
  pvFCFF : ℚ
  tv : ℚ
  pvTV : ℚ
  ev_bn : ℚ
  eq_bn : ℚ
  vps : ℚ

/-- Source: the body of dcfFCFF after the revenue series has been
resolved; it never reads the revSeries_bn field again. -/
def dcfWithSeries (i : DCFInputs) (revSeries : List ℚ) : DCFResult :=
  let rows := (List.range 5).map (dcfRow i revSeries)
  let fcff2031 := dcfTerminalFCFF i rows
  let spread := dcfSpread i
  let tv := fcff2031 / spread
  let pvTV := tv / (1 + i.wacc) ^ 5
  let pvFCFF := rows.foldl (fun s r => s + r.pv) 0
  let ev_bn := pvFCFF + pvTV
  let eq_bn := ev_bn + i.netCash_bn
  let vps := if i.shares > 0 then eq_bn * 1e9 / i.shares else 0
  ⟨rows, pvFCFF, tv, pvTV, ev_bn, eq_bn, vps⟩

/-- Source: dcfFCFF(i). -/
def dcfFCFF (i : DCFInputs) : DCFResult := dcfWithSeries i (dcfRevSeries i)

/-- Every denominator of a division actually performed by dcfFCFF, in
source order: rocSafe (all reinvestment rates), per year the previous
revenue (only on its prevRev > 0 branch) and the discount base
(1 + wacc)^t, the terminal-value spread, the 5-period terminal discount
base, and shares (only on its shares > 0 branch). -/
def dcfDenominators (i : DCFInputs) : List ℚ :=
  let revSeries := dcfRevSeries i
  [rocSafe i]
    ++ ((List.range 5).flatMap (fun idx =>
          let prevRev := if idx = 0 then i.rev2025_bn else revSeries.getD (idx - 1) i.rev2025_bn
          (if prevRev > 0 then [prevRev] else []) ++ [(1 + i.wacc) ^ (idx + 1)]))
    ++ [dcfSpread i, (1 + i.wacc) ^ 5]
    ++ (if i.shares > 0 then [i.shares] else [])

/-- Source type StoreKPIInputs. -/
structure StoreKPIInputs where
  startStores : ℝ
  netNewStores : ℝ
  ramp : ℝ
  sssgDelta : ℝ
  opLeverage : ℝ

/-- Source: effectiveAvgStores(startStores, netNewStores, ramp) =
max(0, startStores) + (netNewStores / 2) * clamp(ramp, 0, 1). -/
def effectiveAvgStores {α : Type} [LinearOrderedField α] (startStores netNewStores ramp : α) : α :=
  max 0 startStores + (netNewStores / 2) * clamp ramp 0 1

/-- Result record of storeDrivenScenario. -/
structure ScenarioResult where
  endStores : ℝ
  avgStoresEff : ℝ
  revenue_bn : ℝ
  npat_bn : ℝ
  epsVND : ℝ
  epsVsPlan : ℝ
  revRatio : ℝ

/-- Source: storeDrivenScenario(planRevenue_bn, planNPAT_bn, shares, base,
scenario). The power is the real power Math.pow(revRatio, opLev) with the
operating-leverage exponent clamped to the real interval between 0.5 and 2. -/
noncomputable def storeDrivenScenario (planRevenue_bn planNPAT_bn shares : ℝ)
    (base scenario : StoreKPIInputs) : ScenarioResult :=
  let baseEff := max 1e-6 (effectiveAvgStores base.startStores base.netNewStores base.ramp)
  let scenEff := max 0 (effectiveAvgStores scenario.startStores scenario.netNewStores scenario.ramp)
  let rev := planRevenue_bn * (scenEff / baseEff) * (1 + scenario.sssgDelta)
  let revRatio := if planRevenue_bn > 0 then max 0 (rev / planRevenue_bn) else 0
  let opLev := clamp scenario.opLeverage 0.5 2
  let npat := planNPAT_bn * revRatio ^ opLev
  let eps := if shares > 0 then npat * 1e9 / shares else 0
  let epsVsPlan := if planNPAT_bn > 0 then npat / planNPAT_bn - 1 else 0
  let endStores := max 0 (scenario.startStores + scenario.netNewStores)
  ⟨endStores, scenEff, rev, npat, eps, epsVsPlan, revRatio⟩

/-- Source type of the buildStoreDCFSeries parameter record. -/
structure StoreDCFParams where
  rev2025_bn : ℚ
  retailShare : ℚ
  otherCagr : ℚ
  storeStart : ℚ
  netNewPerYear : ℚ
  ramp : ℚ
  sssgAbs : ℚ

/-- Source type StoreDCFRow. -/
structure StoreDCFRow where
  year : ℕ
  storesStart : ℚ
  storesEnd : ℚ
  avgStoresEff : ℚ
  sssgAbs : ℚ
  retailRev_bn : ℚ
  otherRev_bn : ℚ
  revenue_bn : ℚ
  yoy : ℚ

/-- All-zero row used as the default for list indexing. -/
def defaultStoreDCFRow : StoreDCFRow := ⟨0, 0, 0, 0, 0, 0, 0, 0, 0⟩

/-- Source: storeStart = Math.max(0, Math.floor(params.storeStart)). -/
def storeStartFloor (p : StoreDCFParams) : ℚ := max 0 ((⌊p.storeStart⌋ : ℤ) : ℚ)

/-- Source: nn = Math.floor(params.netNewPerYear). -/
def netNewFloor (p : StoreDCFParams) : ℚ := ((⌊p.netNewPerYear⌋ : ℤ) : ℚ)

/-- Source: ramp = clamp(params.ramp, 0, 1). -/
def rampClamped (p : StoreDCFParams) : ℚ := clamp p.ramp 0 1

/-- Source: sssg = clamp(params.sssgAbs, -0.05, 0.20). -/
def sssgClamped (p : StoreDCFParams) : ℚ := clamp p.sssgAbs (-0.05) 0.20

/-- Source: otherCagr = clamp(params.otherCagr, -0.05, 0.20). -/
def otherCagrClamped (p : StoreDCFParams) : ℚ := clamp p.otherCagr (-0.05) 0.20

/-- Source: retailShare = clamp(params.retailShare, 0, 1). -/
def retailShareClamped (p : StoreDCFParams) : ℚ := clamp p.retailShare 0 1

/-- Source: matureRetailRevPerEffStore = retailRev2025 / baseEff2025 with
baseEff2025 = Math.max(1e-6, effectiveAvgStores(storeStart, nn, ramp)). -/
def matureRetailRevPerEffStore (p : StoreDCFParams) : ℚ :=
  p.rev2025_bn * retailShareClamped p /
    max 1e-6 (effectiveAvgStores (storeStartFloor p) (netNewFloor p) (rampClamped p))

/-- Source: the body of the years.forEach callback of buildStoreDCFSeries
for index idx (year 2026 + idx, t = idx + 1), given the running
previous-year total revenue carried by the loop. -/
def storeDCFRow (p : StoreDCFParams) (idx : ℕ) (prevTotal : ℚ) : StoreDCFRow :=
  let t := idx + 1
  let storesStart := storeStartFloor p + netNewFloor p * ((t : ℚ) - 1)
  let storesEnd := storesStart + netNewFloor p
  let avgStoresEff := storesStart + (netNewFloor p / 2) * rampClamped p
  let retailRev := matureRetailRevPerEffStore p * avgStoresEff * (1 + sssgClamped p) ^ t
  let otherRev := p.rev2025_bn * (1 - retailShareClamped p) * (1 + otherCagrClamped p) ^ t
  let total := retailRev + otherRev
  let yoy := if prevTotal > 0 then total / prevTotal - 1 else 0
  ⟨2025 + t, storesStart, storesEnd, avgStoresEff, sssgClamped p, retailRev, otherRev, total, yoy⟩

/-- Source: buildStoreDCFSeries(params) - the per-year rows together with
the running previous-year total carried by the loop (the new total after
each iteration is the revenue of the row just pushed). The source also
returns a diagnostic implied CAGR (a real fifth root) that no claim uses
and that is not modelled here. -/
def buildStoreDCFSeries (p : StoreDCFParams) : List StoreDCFRow × ℚ :=
  ([0, 1, 2, 3, 4] : List ℕ).foldl
    (fun acc idx => (acc.1 ++ [storeDCFRow p idx acc.2], (storeDCFRow p idx acc.2).revenue_bn))
    ([], p.rev2025_bn)

/-- Source type of the normalized-weight record of the blended combiner. -/
structure NormWeights where
  wPE : ℚ
  wDCF : ℚ
  wPB : ℚ
  sum : ℚ

/-- Source: normalizedWeights - effective weight is the raw weight when the
method is enabled and 0 otherwise; all weights are 0 when the effective sum
is not positive. -/
def normalizedWeights (usePE useDCF usePB : Bool) (wPE wDCF wPB : ℚ) : NormWeights :=
  let a := if usePE then wPE else 0
  let b := if useDCF then wDCF else 0
  let c := if usePB then wPB else 0
  let s := a + b + c
  if s ≤ 0 then ⟨0, 0, 0, 0⟩ else ⟨a / s, b / s, c / s, s⟩

/-- Source: the combined value v of blendedValue. -/
def blendedValue (usePE useDCF usePB : Bool) (wPE wDCF wPB peV dcfV pbV : ℚ) : ℚ :=
  let nw := normalizedWeights usePE useDCF usePB wPE wDCF wPB
  (if usePE then nw.wPE * peV else 0) + (if useDCF then nw.wDCF * dcfV else 0) +
    (if usePB then nw.wPB * pbV else 0)

/-! Helper lemmas. -/

lemma clamp_nonneg_le {α : Type} [LinearOrderedField α] (x hi : α) (h : 0 ≤ hi) :
    0 ≤ clamp x 0 hi ∧ clamp x 0 hi ≤ hi :=
  ⟨le_min h (le_max_left 0 x), min_le_left hi (max 0 x)⟩

lemma dcf_rows_getD (i : DCFInputs) (idx : ℕ) (h : idx < 5) :
    (dcfFCFF i).rows.getD idx defaultDCFRow = dcfRow i (dcfRevSeries i) idx := by
  have hlen : idx < ((List.range 5).map (dcfRow i (dcfRevSeries i))).length := by
    simpa using h
  show ((List.range 5).map (dcfRow i (dcfRevSeries i))).getD idx defaultDCFRow = _
  rw [List.getD_eq_getElem _ _ hlen]
  simp

lemma buildStoreDCFSeries_fst (p : StoreDCFParams) :
    (buildStoreDCFSeries p).1 =
      [storeDCFRow p 0 p.rev2025_bn,
        storeDCFRow p 1 (storeDCFRow p 0 p.rev2025_bn).revenue_bn,
        storeDCFRow p 2 (storeDCFRow p 1 (storeDCFRow p 0 p.rev2025_bn).revenue_bn).revenue_bn,
        storeDCFRow p 3 (storeDCFRow p 2 (storeDCFRow p 1
          (storeDCFRow p 0 p.rev2025_bn).revenue_bn).revenue_bn).revenue_bn,
        storeDCFRow p 4 (storeDCFRow p 3 (storeDCFRow p 2 (storeDCFRow p 1
          (storeDCFRow p 0 p.rev2025_bn).revenue_bn).revenue_bn).revenue_bn).revenue_bn] := rfl

lemma getD_list5_zero {α : Type} (x0 x1 x2 x3 x4 d : α) : [x0, x1, x2, x3, x4].getD 0 d = x0 := rfl

lemma getD_list5_one {α : Type} (x0 x1 x2 x3 x4 d : α) : [x0, x1, x2, x3, x4].getD 1 d = x1 := rfl

lemma getD_list5_two {α : Type} (x0 x1 x2 x3 x4 d : α) : [x0, x1, x2, x3, x4].getD 2 d = x2 := rfl

lemma getD_list5_three {α : Type} (x0 x1 x2 x3 x4 d : α) : [x0, x1, x2, x3, x4].getD 3 d = x3 := rfl

lemma getD_list5_four {α : Type} (x0 x1 x2 x3 x4 d : α) : [x0, x1, x2, x3, x4].getD 4 d = x4 := rfl

/-! Claim theorems. -/

/-- C5: the terminal value computed by dcfFCFF divides the terminal-year
cash flow by max(0.001, wacc - gT); that spread is always positive, and
when wacc equals the terminal growth rate it is exactly 0.001, so no
division by zero occurs. -/
theorem dcf_tv_spread_guard (i : DCFInputs) :
    (dcfFCFF i).tv = dcfTerminalFCFF i ((dcfFCFF i).rows) / max 0.001 (i.wacc - i.gT) ∧
    0 < dcfSpread i ∧
    (i.wacc = i.gT → dcfSpread i = 0.001) := by
  refine ⟨rfl, lt_of_lt_of_le (by norm_num) (le_max_left _ _), fun h => ?_⟩
  rw [dcfSpread, h, sub_self]
  exact max_eq_left (by norm_num)

/-- C5 witness: at a concrete input with wacc equal to terminal growth the
spread is exactly 0.001. -/
theorem dcf_tv_spread_guard_witness :
    dcfSpread ⟨100, 0.08, none, 0.2, 0.2, 0.1, 0.03, 0.03, 0, 1⟩ = 0.001 :=
  (dcf_tv_spread_guard ⟨100, 0.08, none, 0.2, 0.2, 0.1, 0.03, 0.03, 0, 1⟩).2.2 rfl

/-- C6: for every DCF input with positive ROC, the reinvestment rate of
each explicit-year row and the terminal-year reinvestment rate lie in the
closed interval between 0 and 0.95. -/
theorem dcf_reinvRate_in_unit_interval (i : DCFInputs) (idx : ℕ)
    (_hroc : 0 < i.roc) (hidx : idx < 5) :
    (0 ≤ ((dcfFCFF i).rows.getD idx defaultDCFRow).reinvRate ∧
      ((dcfFCFF i).rows.getD idx defaultDCFRow).reinvRate ≤ 0.95) ∧
    0 ≤ dcfReinvTerm i ∧ dcfReinvTerm i ≤ 0.95 := by
  have hc : ∀ x : ℚ, 0 ≤ clamp x 0 0.95 ∧ clamp x 0 0.95 ≤ 0.95 :=
    fun x => clamp_nonneg_le x 0.95 (by norm_num)
  refine ⟨?_, ?_⟩
  · rw [dcf_rows_getD i idx hidx]
    exact hc _
  · exact hc _

/-- C6 witness: the bounds hold at a concrete input and year. -/
theorem dcf_reinvRate_in_unit_interval_witness :
    (0 ≤ ((dcfFCFF ⟨100, 0.08, none, 0.2, 0.2, 0.1, 0.12, 0.03, 0, 1⟩).rows.getD 2
        defaultDCFRow).reinvRate ∧
      ((dcfFCFF ⟨100, 0.08, none, 0.2, 0.2, 0.1, 0.12, 0.03, 0, 1⟩).rows.getD 2
        defaultDCFRow).reinvRate ≤ 0.95) ∧
    0 ≤ dcfReinvTerm ⟨100, 0.08, none, 0.2, 0.2, 0.1, 0.12, 0.03, 0, 1⟩ ∧
    dcfReinvTerm ⟨100, 0.08, none, 0.2, 0.2, 0.1, 0.12, 0.03, 0, 1⟩ ≤ 0.95 :=
  dcf_reinvRate_in_unit_interval ⟨100, 0.08, none, 0.2, 0.2, 0.1, 0.12, 0.03, 0, 1⟩ 2
    (by norm_num) (by norm_num)

/-- C7: with non-positive shares outstanding, plan EPS, book value per
share, the scenario EPS of storeDrivenScenario and the DCF value per share
are all exactly 0. -/
theorem degenerate_shares_zero (planNPAT_bn totalEquity_bn s : ℚ)
    (planRevenue_r planNPAT_r shares_r : ℝ) (base scenario : StoreKPIInputs)
    (i : DCFInputs) (hs : s ≤ 0) (hsr : shares_r ≤ 0) (hi : i.shares = s) :
    planEPSVND planNPAT_bn s = 0 ∧ bvpsVND totalEquity_bn s = 0 ∧
    (storeDrivenScenario planRevenue_r planNPAT_r shares_r base scenario).epsVND = 0 ∧
    (dcfFCFF i).vps = 0 := by
  have h1 : ¬ (s > 0) := not_lt.mpr hs
  have h2 : ¬ (shares_r > 0) := not_lt.mpr hsr
  refine ⟨if_neg h1, if_neg h1, ?_, ?_⟩
  · simp only [storeDrivenScenario]
    exact if_neg h2
  · simp only [dcfFCFF, dcfWithSeries]
    rw [hi]
    exact if_neg h1

/-- C7 witness: all four per-share values vanish at a concrete degenerate
input with zero rational shares and negative real shares. -/
theorem degenerate_shares_zero_witness :
    planEPSVND 1959.65 0 = 0 ∧ bvpsVND 11365 0 = 0 ∧
    (storeDrivenScenario 37000 1959.65 (-1) ⟨430, 40, 0.6, 0, 1.1⟩
      ⟨430, 40, 0.6, 0, 1.1⟩).epsVND = 0 ∧
    (dcfFCFF ⟨31606.954, 0.08, none, 0.2, 0.2, 0.1, 0.12, 0.03, 1801.342, 0⟩).vps = 0 :=
  degenerate_shares_zero 1959.65 11365 0 37000 1959.65 (-1) ⟨430, 40, 0.6, 0, 1.1⟩
    ⟨430, 40, 0.6, 0, 1.1⟩ ⟨31606.954, 0.08, none, 0.2, 0.2, 0.1, 0.12, 0.03, 1801.342, 0⟩
    le_rfl (by norm_num) rfl

/-- C8: running dcfFCFF with an explicit 5-entry revenue path whose entries
are rev2025 * (1 + cagr)^t for t = 1..5 returns exactly the same result
record as running it with no explicit path and the same fallback CAGR. -/
theorem dcf_revpath_roundtrip (rev2025_bn cagr ebitMargin tax roc wacc gT netCash_bn shares : ℚ) :
    dcfFCFF ⟨rev2025_bn, cagr, some (cagrPath rev2025_bn cagr), ebitMargin, tax, roc, wacc,
      gT, netCash_bn, shares⟩ =
    dcfFCFF ⟨rev2025_bn, cagr, none, ebitMargin, tax, roc, wacc, gT, netCash_bn, shares⟩ := by
  have h : dcfRevSeries ⟨rev2025_bn, cagr, some (cagrPath rev2025_bn cagr), ebitMargin, tax,
      roc, wacc, gT, netCash_bn, shares⟩ =
      dcfRevSeries ⟨rev2025_bn, cagr, none, ebitMargin, tax, roc, wacc, gT, netCash_bn,
        shares⟩ := by
    simp [dcfRevSeries]
  show dcfWithSeries _ (dcfRevSeries _) = dcfWithSeries _ (dcfRevSeries _)
  rw [h]
  rfl

/-- C1 counterexample: at the concrete input with wacc = -1 the discount
base (1 + wacc)^t is 0, so dcfFCFF performs a division by zero (the source
computes disc = 1 / 0, an infinite value), refuting the claim that every
input produces finite output with all division guarded. -/
theorem dcf_total_counterexample :
    ¬ (∀ d ∈ dcfDenominators ⟨100, 0.1, none, 0.2, 0.2, 0.1, -1, 0, 0, 1⟩, d ≠ 0) := by
  intro h
  have hm : (0 : ℚ) ∈ dcfDenominators ⟨100, 0.1, none, 0.2, 0.2, 0.1, -1, 0, 0, 1⟩ := by
    simp only [dcfDenominators]
    refine List.mem_append.mpr (Or.inl ?_)
    refine List.mem_append.mpr (Or.inl ?_)
    refine List.mem_append.mpr (Or.inr ?_)
    refine List.mem_flatMap.mpr ⟨0, by norm_num, ?_⟩
    refine List.mem_append.mpr (Or.inr ?_)
    refine List.mem_singleton.mpr ?_
    show (0 : ℚ) = (1 + (-1)) ^ (0 + 1)
    norm_num
  exact h 0 hm rfl

/-- C1 (amended): for every input whose WACC is not exactly -1, every
division performed by dcfFCFF has a nonzero denominator, so in exact
arithmetic every field of the result is a well-defined finite value. -/
theorem dcf_denominators_nonzero (i : DCFInputs) (h : i.wacc ≠ -1) :
    (0 : ℚ) ∉ dcfDenominators i := by
  have h1 : (1 : ℚ) + i.wacc ≠ 0 := fun h0 => h (by linarith)
  intro hmem
  simp only [dcfDenominators, List.mem_append, List.mem_flatMap, List.mem_cons,
    List.mem_singleton, List.not_mem_nil, or_false] at hmem
  rcases hmem with ((h0 | ⟨a, _, hm⟩) | h0 | h0) | h0
  · have : (0 : ℚ) < rocSafe i := lt_of_lt_of_le (by norm_num) (le_max_right i.roc 1e-6)
    exact absurd h0.symm (ne_of_gt this)
  · rcases hm with hm1 | hm2
    · by_cases hp : (if a = 0 then i.rev2025_bn else (dcfRevSeries i).getD (a - 1) i.rev2025_bn) > 0
      · rw [if_pos hp, List.mem_singleton] at hm1
        exact absurd hm1.symm (ne_of_gt hp)
      · rw [if_neg hp] at hm1
        exact absurd hm1 (List.not_mem_nil 0)
    · exact absurd hm2.symm (pow_ne_zero (a + 1) h1)
  · have : (0 : ℚ) < dcfSpread i := lt_of_lt_of_le (by norm_num) (le_max_left _ _)
    exact absurd h0.symm (ne_of_gt this)
  · exact absurd h0.symm (pow_ne_zero 5 h1)
  · by_cases hp : i.shares > 0
    · rw [if_pos hp, List.mem_singleton] at h0
      exact absurd h0.symm (ne_of_gt hp)
    · rw [if_neg hp] at h0
      exact absurd h0 (List.not_mem_nil 0)

/-- C1 witness: at a concrete non-degenerate input no denominator of
dcfFCFF is zero. -/
theorem dcf_denominators_nonzero_witness :
    (0 : ℚ) ∉ dcfDenominators ⟨31606.954, 0.08, none, 0.2, 0.2, 0.1, 0.12, 0.03,
      1801.342, 341149107⟩ :=
  dcf_denominators_nonzero ⟨31606.954, 0.08, none, 0.2, 0.2, 0.1, 0.12, 0.03,
    1801.342, 341149107⟩ (by norm_num)

/-- C2 counterexample: with the scenario equal to the base and zero SSSG
delta, but a base with no stores (effective average stores 0, below the
1e-6 floor applied only to the base), storeDrivenScenario returns revenue
and NPAT 0 rather than the plan figures 100 and 10. -/
theorem identity_scenario_counterexample :
    ¬ ((storeDrivenScenario 100 10 1 ⟨0, 0, 0, 0, 1⟩ ⟨0, 0, 0, 0, 1⟩).revenue_bn = 100 ∧
      (storeDrivenScenario 100 10 1 ⟨0, 0, 0, 0, 1⟩ ⟨0, 0, 0, 0, 1⟩).npat_bn = 10) := by
  rintro ⟨h1, -⟩
  rw [show (storeDrivenScenario 100 10 1 ⟨0, 0, 0, 0, 1⟩ ⟨0, 0, 0, 0, 1⟩).revenue_bn =
      100 * (max 0 (effectiveAvgStores (0:ℝ) 0 0) / max 1e-6 (effectiveAvgStores (0:ℝ) 0 0)) *
        (1 + 0) from rfl] at h1
  rw [show effectiveAvgStores (0:ℝ) 0 0 = 0 by
    simp [effectiveAvgStores, clamp]] at h1
  norm_num at h1

/-- C2 (amended): when the scenario KPI record equals the base record, its
SSSG delta is 0, the base effective average store count is at least the
1e-6 floor, and the plan revenue is positive, storeDrivenScenario returns
revenue exactly planRevenue and NPAT exactly planNPAT. -/
theorem identity_scenario (planRevenue_bn planNPAT_bn shares : ℝ) (b : StoreKPIInputs)
    (hd : b.sssgDelta = 0)
    (he : 1e-6 ≤ effectiveAvgStores b.startStores b.netNewStores b.ramp)
    (hpr : 0 < planRevenue_bn) :
    (storeDrivenScenario planRevenue_bn planNPAT_bn shares b b).revenue_bn = planRevenue_bn ∧
    (storeDrivenScenario planRevenue_bn planNPAT_bn shares b b).npat_bn = planNPAT_bn := by
  have h0 : (0:ℝ) < effectiveAvgStores b.startStores b.netNewStores b.ramp :=
    lt_of_lt_of_le (by norm_num) he
  have hbase : max (1e-6:ℝ) (effectiveAvgStores b.startStores b.netNewStores b.ramp) =
      effectiveAvgStores b.startStores b.netNewStores b.ramp := max_eq_right he
  have hscen : max (0:ℝ) (effectiveAvgStores b.startStores b.netNewStores b.ramp) =
      effectiveAvgStores b.startStores b.netNewStores b.ramp := max_eq_right h0.le
  constructor
  · simp only [storeDrivenScenario, hbase, hscen, hd, div_self (ne_of_gt h0), mul_one, add_zero]
  · simp only [storeDrivenScenario, hbase, hscen, hd, div_self (ne_of_gt h0), mul_one, add_zero]
    rw [if_pos hpr, div_self (ne_of_gt hpr), max_eq_right zero_le_one, Real.one_rpow, mul_one]

/-- C2 witness: the identity scenario reproduces the plan at a concrete
base with 430 stores. -/
theorem identity_scenario_witness :
    (storeDrivenScenario 37000 1959.65 341149107 ⟨430, 40, 0.6, 0, 1.1⟩
      ⟨430, 40, 0.6, 0, 1.1⟩).revenue_bn = 37000 ∧
    (storeDrivenScenario 37000 1959.65 341149107 ⟨430, 40, 0.6, 0, 1.1⟩
      ⟨430, 40, 0.6, 0, 1.1⟩).npat_bn = 1959.65 :=
  identity_scenario 37000 1959.65 341149107 ⟨430, 40, 0.6, 0, 1.1⟩ rfl
    (by norm_num [effectiveAvgStores, clamp, max_def, min_def]) (by norm_num)

/-- C3 counterexample: with a negative plan revenue, increasing
netNewStores from 0 to 2 (all other scenario fields fixed, operating
leverage 1 which is nonnegative) strictly decreases the scenario revenue,
refuting the claimed monotonicity. -/
theorem store_monotonicity_counterexample :
    (storeDrivenScenario (-100) 10 1 ⟨2, 0, 1, 0, 1⟩ ⟨2, 2, 1, 0, 1⟩).revenue_bn <
    (storeDrivenScenario (-100) 10 1 ⟨2, 0, 1, 0, 1⟩ ⟨2, 0, 1, 0, 1⟩).revenue_bn := by
  rw [show (storeDrivenScenario (-100) 10 1 ⟨2, 0, 1, 0, 1⟩ ⟨2, 2, 1, 0, 1⟩).revenue_bn =
      (-100) * (max 0 (effectiveAvgStores (2:ℝ) 2 1) / max 1e-6 (effectiveAvgStores (2:ℝ) 0 1)) *
        (1 + 0) from rfl,
    show (storeDrivenScenario (-100) 10 1 ⟨2, 0, 1, 0, 1⟩ ⟨2, 0, 1, 0, 1⟩).revenue_bn =
      (-100) * (max 0 (effectiveAvgStores (2:ℝ) 0 1) / max 1e-6 (effectiveAvgStores (2:ℝ) 0 1)) *
        (1 + 0) from rfl]
  rw [show effectiveAvgStores (2:ℝ) 2 1 = 3 by norm_num [effectiveAvgStores, clamp, max_def, min_def],
    show effectiveAvgStores (2:ℝ) 0 1 = 2 by norm_num [effectiveAvgStores, clamp, max_def, min_def]]
  norm_num [max_def, min_def]

/-- C3 (amended): holding every input fixed except netNewStores, with a
larger netNewStores, nonnegative operating leverage, nonnegative plan
revenue and plan NPAT, and SSSG delta at least -1, the effective average
stores, revenue and NPAT of storeDrivenScenario never decrease. -/
theorem store_monotonicity (planRevenue_bn planNPAT_bn shares : ℝ) (b sc : StoreKPIInputs)
    (nn nn' : ℝ) (hnn : nn ≤ nn') (_hop : 0 ≤ sc.opLeverage) (hpr : 0 ≤ planRevenue_bn)
    (hpn : 0 ≤ planNPAT_bn) (hsd : 0 ≤ 1 + sc.sssgDelta) :
    (storeDrivenScenario planRevenue_bn planNPAT_bn shares b
        ⟨sc.startStores, nn, sc.ramp, sc.sssgDelta, sc.opLeverage⟩).avgStoresEff ≤
      (storeDrivenScenario planRevenue_bn planNPAT_bn shares b
        ⟨sc.startStores, nn', sc.ramp, sc.sssgDelta, sc.opLeverage⟩).avgStoresEff ∧
    (storeDrivenScenario planRevenue_bn planNPAT_bn shares b
        ⟨sc.startStores, nn, sc.ramp, sc.sssgDelta, sc.opLeverage⟩).revenue_bn ≤
      (storeDrivenScenario planRevenue_bn planNPAT_bn shares b
        ⟨sc.startStores, nn', sc.ramp, sc.sssgDelta, sc.opLeverage⟩).revenue_bn ∧
    (storeDrivenScenario planRevenue_bn planNPAT_bn shares b
        ⟨sc.startStores, nn, sc.ramp, sc.sssgDelta, sc.opLeverage⟩).npat_bn ≤
      (storeDrivenScenario planRevenue_bn planNPAT_bn shares b
        ⟨sc.startStores, nn', sc.ramp, sc.sssgDelta, sc.opLeverage⟩).npat_bn := by
  have hclampR : (0:ℝ) ≤ clamp sc.ramp 0 1 := (clamp_nonneg_le sc.ramp 1 zero_le_one).1
  have he : effectiveAvgStores sc.startStores nn sc.ramp ≤
      effectiveAvgStores sc.startStores nn' sc.ramp := by
    unfold effectiveAvgStores
    exact add_le_add_left (mul_le_mul_of_nonneg_right (by linarith) hclampR) _
  have hscen : max (0:ℝ) (effectiveAvgStores sc.startStores nn sc.ramp) ≤
      max 0 (effectiveAvgStores sc.startStores nn' sc.ramp) := max_le_max le_rfl he
  have hbasepos : (0:ℝ) < max 1e-6 (effectiveAvgStores b.startStores b.netNewStores b.ramp) :=
    lt_of_lt_of_le (by norm_num) (le_max_left _ _)
  have hrev : planRevenue_bn *
      (max 0 (effectiveAvgStores sc.startStores nn sc.ramp) /
        max 1e-6 (effectiveAvgStores b.startStores b.netNewStores b.ramp)) *
      (1 + sc.sssgDelta) ≤
      planRevenue_bn *
      (max 0 (effectiveAvgStores sc.startStores nn' sc.ramp) /
        max 1e-6 (effectiveAvgStores b.startStores b.netNewStores b.ramp)) *
      (1 + sc.sssgDelta) := by
    refine mul_le_mul_of_nonneg_right (mul_le_mul_of_nonneg_left ?_ hpr) hsd
    exact div_le_div_of_nonneg_right hscen hbasepos.le
  refine ⟨?_, ?_, ?_⟩
  · simp only [storeDrivenScenario]
    exact hscen
  · simp only [storeDrivenScenario]
    exact hrev
  · simp only [storeDrivenScenario]
    have hz : (0:ℝ) ≤ clamp sc.opLeverage 0.5 2 :=
      le_min (by norm_num) (le_trans (by norm_num) (le_max_left _ _))
    by_cases hp : planRevenue_bn > 0
    · rw [if_pos hp, if_pos hp]
      refine mul_le_mul_of_nonneg_left ?_ hpn
      refine Real.rpow_le_rpow (le_max_left 0 _) ?_ hz
      exact max_le_max le_rfl (div_le_div_of_nonneg_right hrev hp.le)
    · rw [if_neg hp, if_neg hp]

/-- C3 witness: the monotone bounds hold at a concrete pair of scenarios
opening 10 versus 40 stores. -/
theorem store_monotonicity_witness :
    (storeDrivenScenario 37000 1959.65 341149107 ⟨430, 40, 0.6, 0, 1.1⟩
        ⟨430, 10, 0.6, -0.02, 1.1⟩).avgStoresEff ≤
      (storeDrivenScenario 37000 1959.65 341149107 ⟨430, 40, 0.6, 0, 1.1⟩
        ⟨430, 40, 0.6, -0.02, 1.1⟩).avgStoresEff ∧
    (storeDrivenScenario 37000 1959.65 341149107 ⟨430, 40, 0.6, 0, 1.1⟩
        ⟨430, 10, 0.6, -0.02, 1.1⟩).revenue_bn ≤
      (storeDrivenScenario 37000 1959.65 341149107 ⟨430, 40, 0.6, 0, 1.1⟩
        ⟨430, 40, 0.6, -0.02, 1.1⟩).revenue_bn ∧
    (storeDrivenScenario 37000 1959.65 341149107 ⟨430, 40, 0.6, 0, 1.1⟩
        ⟨430, 10, 0.6, -0.02, 1.1⟩).npat_bn ≤
      (storeDrivenScenario 37000 1959.65 341149107 ⟨430, 40, 0.6, 0, 1.1⟩
        ⟨430, 40, 0.6, -0.02, 1.1⟩).npat_bn :=
  store_monotonicity 37000 1959.65 341149107 ⟨430, 40, 0.6, 0, 1.1⟩
    ⟨430, 0, 0.6, -0.02, 1.1⟩ 10 40 (by norm_num) (by norm_num) (by norm_num)
    (by norm_num) (by norm_num)

/-- C10: with a nonnegative plan NPAT, the scenario NPAT returned by
storeDrivenScenario is never negative (the revenue ratio is floored at 0
before the operating-leverage power is applied), and the scenario EPS is
never negative either. -/
theorem scenario_npat_nonneg (planRevenue_bn planNPAT_bn shares : ℝ) (b sc : StoreKPIInputs)
    (hpn : 0 ≤ planNPAT_bn) :
    0 ≤ (storeDrivenScenario planRevenue_bn planNPAT_bn shares b sc).npat_bn ∧
    0 ≤ (storeDrivenScenario planRevenue_bn planNPAT_bn shares b sc).epsVND := by
  have hnp : 0 ≤ (storeDrivenScenario planRevenue_bn planNPAT_bn shares b sc).npat_bn := by
    simp only [storeDrivenScenario]
    refine mul_nonneg hpn (Real.rpow_nonneg ?_ _)
    by_cases hp : planRevenue_bn > 0
    · rw [if_pos hp]
      exact le_max_left 0 _
    · rw [if_neg hp]
  refine ⟨hnp, ?_⟩
  simp only [storeDrivenScenario] at hnp ⊢
  by_cases hs : shares > 0
  · rw [if_pos hs]
    exact div_nonneg (mul_nonneg hnp (by norm_num)) hs.le
  · rw [if_neg hs]

/-- C10 witness: scenario NPAT and EPS are nonnegative at a concrete
deeply stressed scenario. -/
theorem scenario_npat_nonneg_witness :
    0 ≤ (storeDrivenScenario 37000 1959.65 341149107 ⟨430, 40, 0.6, 0, 1.1⟩
      ⟨100, -500, 0.2, -0.9, 2⟩).npat_bn ∧
    0 ≤ (storeDrivenScenario 37000 1959.65 341149107 ⟨430, 40, 0.6, 0, 1.1⟩
      ⟨100, -500, 0.2, -0.9, 2⟩).epsVND :=
  scenario_npat_nonneg 37000 1959.65 341149107 ⟨430, 40, 0.6, 0, 1.1⟩
    ⟨100, -500, 0.2, -0.9, 2⟩ (by norm_num)

/-- C4 counterexample: with only the P/E method enabled but its raw weight
0 - so at least one method is enabled - the effective sum is 0 and the
normalized weights sum to 0, not 1, refuting the claim as stated. -/
theorem weight_normalization_counterexample :
    ¬ ((normalizedWeights true false false 0 17 23).wPE +
      (normalizedWeights true false false 0 17 23).wDCF +
      (normalizedWeights true false false 0 17 23).wPB = 1) := by
  norm_num [normalizedWeights]

/-- C4 (amended): whenever the sum of the effective (enabled) raw weights
is positive the three normalized weights sum to exactly 1; a disabled
method always has normalized weight 0; and when all three methods are
disabled all normalized weights are 0 and the blended value is exactly 0. -/
theorem weight_normalization (usePE useDCF usePB : Bool) (wPE wDCF wPB peV dcfV pbV : ℚ) :
    (0 < (if usePE then wPE else 0) + (if useDCF then wDCF else 0) + (if usePB then wPB else 0) →
      (normalizedWeights usePE useDCF usePB wPE wDCF wPB).wPE +
        (normalizedWeights usePE useDCF usePB wPE wDCF wPB).wDCF +
        (normalizedWeights usePE useDCF usePB wPE wDCF wPB).wPB = 1) ∧
    (usePE = false → (normalizedWeights usePE useDCF usePB wPE wDCF wPB).wPE = 0) ∧
    (useDCF = false → (normalizedWeights usePE useDCF usePB wPE wDCF wPB).wDCF = 0) ∧
    (usePB = false → (normalizedWeights usePE useDCF usePB wPE wDCF wPB).wPB = 0) ∧
    (usePE = false → useDCF = false → usePB = false →
      (normalizedWeights usePE useDCF usePB wPE wDCF wPB).wPE = 0 ∧
      (normalizedWeights usePE useDCF usePB wPE wDCF wPB).wDCF = 0 ∧
      (normalizedWeights usePE useDCF usePB wPE wDCF wPB).wPB = 0 ∧
      blendedValue usePE useDCF usePB wPE wDCF wPB peV dcfV pbV = 0) := by
  refine ⟨?_, ?_, ?_, ?_, ?_⟩
  · intro hpos
    simp only [normalizedWeights, if_neg (not_le.mpr hpos)]
    rw [div_add_div_same, div_add_div_same, div_self (ne_of_gt hpos)]
  · intro h
    subst h
    simp only [normalizedWeights, Bool.false_eq_true, if_false]
    rcases le_or_lt ((0:ℚ) + (if useDCF then wDCF else 0) + (if usePB then wPB else 0)) 0
      with hs | hs
    · rw [if_pos hs]
    · rw [if_neg (not_le.mpr hs)]
      exact zero_div _
  · intro h
    subst h
    simp only [normalizedWeights, Bool.false_eq_true, if_false]
    rcases le_or_lt ((if usePE then wPE else 0) + (0:ℚ) + (if usePB then wPB else 0)) 0
      with hs | hs
    · rw [if_pos hs]
    · rw [if_neg (not_le.mpr hs)]
      exact zero_div _
  · intro h
    subst h
    simp only [normalizedWeights, Bool.false_eq_true, if_false]
    rcases le_or_lt ((if usePE then wPE else 0) + (if useDCF then wDCF else 0) + (0:ℚ)) 0
      with hs | hs
    · rw [if_pos hs]
    · rw [if_neg (not_le.mpr hs)]
      exact zero_div _
  · intro h1 h2 h3
    refine ⟨?_, ?_, ?_, ?_⟩ <;> norm_num [normalizedWeights, blendedValue, h1, h2, h3]

/-- C4 witness: enabled weights 50 and 30 normalize to a sum of exactly 1,
and the all-disabled configuration yields a blended value of exactly 0. -/
theorem weight_normalization_witness :
    (normalizedWeights true true false 50 30 20).wPE +
      (normalizedWeights true true false 50 30 20).wDCF +
      (normalizedWeights true true false 50 30 20).wPB = 1 ∧
    blendedValue false false false 50 30 20 95900 90000 80000 = 0 :=
  ⟨(weight_normalization true true false 50 30 20 95900 90000 80000).1 (by norm_num),
    ((weight_normalization false false false 50 30 20 95900 90000 80000).2.2.2.2
      rfl rfl rfl).2.2.2⟩

/-- C9 counterexample: with caller-supplied storeStart = 3/2 (and zero net
new stores per year), the first-year storesStart is floor-and-clamped to 1,
not the caller-supplied 3/2 the claim asserts. -/
theorem store_series_counterexample :
    ((buildStoreDCFSeries ⟨100, 1, 0, 3/2, 0, 0, 0⟩).1.getD 0
      defaultStoreDCFRow).storesStart ≠ 3/2 + 0 * ((1:ℚ) - 1) := by
  have hf : (⌊(3/2 : ℚ)⌋ : ℤ) = 1 := by
    rw [Int.floor_eq_iff]
    norm_num
  rw [buildStoreDCFSeries_fst, getD_list5_zero]
  simp only [storeDCFRow, storeStartFloor, netNewFloor, hf]
  norm_num [max_def]

/-- C9 (amended): for each year index t = 1..5, the row of
buildStoreDCFSeries satisfies storesStart = S + N*(t-1),
storesEnd = storesStart + N, avgStoresEff = storesStart + (N/2)*R and
retailRev = matureRetailRevPerEffStore * avgStoresEff * (1+sssg)^t, where
S is the floored-and-clamped store start max(0, floor(storeStart)), N is
floor(netNewPerYear), R is ramp clamped to [0,1] and sssg is the SSSG
clamped to [-0.05, 0.20] - the floor/clamp of the raw caller inputs being
the correction to the claim. -/
theorem store_series_rows (p : StoreDCFParams) (t : ℕ) (h1 : 1 ≤ t) (h5 : t ≤ 5) :
    ((buildStoreDCFSeries p).1.getD (t - 1) defaultStoreDCFRow).storesStart =
      storeStartFloor p + netNewFloor p * ((t:ℚ) - 1) ∧
    ((buildStoreDCFSeries p).1.getD (t - 1) defaultStoreDCFRow).storesEnd =
      ((buildStoreDCFSeries p).1.getD (t - 1) defaultStoreDCFRow).storesStart + netNewFloor p ∧
    ((buildStoreDCFSeries p).1.getD (t - 1) defaultStoreDCFRow).avgStoresEff =
      ((buildStoreDCFSeries p).1.getD (t - 1) defaultStoreDCFRow).storesStart +
        (netNewFloor p / 2) * rampClamped p ∧
    ((buildStoreDCFSeries p).1.getD (t - 1) defaultStoreDCFRow).retailRev_bn =
      matureRetailRevPerEffStore p *
        ((buildStoreDCFSeries p).1.getD (t - 1) defaultStoreDCFRow).avgStoresEff *
        (1 + sssgClamped p) ^ t := by
  interval_cases t
  · rw [buildStoreDCFSeries_fst, show (1:ℕ) - 1 = 0 from rfl, getD_list5_zero]
    refine ⟨?_, ?_, ?_, ?_⟩ <;> (simp only [storeDCFRow]; try norm_num)
  · rw [buildStoreDCFSeries_fst, show (2:ℕ) - 1 = 1 from rfl, getD_list5_one]
    refine ⟨?_, ?_, ?_, ?_⟩ <;> (simp only [storeDCFRow]; try norm_num)
  · rw [buildStoreDCFSeries_fst, show (3:ℕ) - 1 = 2 from rfl, getD_list5_two]
    refine ⟨?_, ?_, ?_, ?_⟩ <;> (simp only [storeDCFRow]; try norm_num)
  · rw [buildStoreDCFSeries_fst, show (4:ℕ) - 1 = 3 from rfl, getD_list5_three]
    refine ⟨?_, ?_, ?_, ?_⟩ <;> (simp only [storeDCFRow]; try norm_num)
  · rw [buildStoreDCFSeries_fst, show (5:ℕ) - 1 = 4 from rfl, getD_list5_four]
    refine ⟨?_, ?_, ?_, ?_⟩ <;> (simp only [storeDCFRow]; try norm_num)

/-- C9 witness: the per-year formulas hold at a concrete parameter set and
year 3. -/
theorem store_series_rows_witness :
    ((buildStoreDCFSeries ⟨31606.954, 0.7, 0.05, 430, 25, 0.6, 0.05⟩).1.getD (3 - 1)
      defaultStoreDCFRow).storesStart =
      storeStartFloor ⟨31606.954, 0.7, 0.05, 430, 25, 0.6, 0.05⟩ +
        netNewFloor ⟨31606.954, 0.7, 0.05, 430, 25, 0.6, 0.05⟩ * ((3:ℚ) - 1) ∧
    ((buildStoreDCFSeries ⟨31606.954, 0.7, 0.05, 430, 25, 0.6, 0.05⟩).1.getD (3 - 1)
      defaultStoreDCFRow).storesEnd =
      ((buildStoreDCFSeries ⟨31606.954, 0.7, 0.05, 430, 25, 0.6, 0.05⟩).1.getD (3 - 1)
        defaultStoreDCFRow).storesStart + netNewFloor ⟨31606.954, 0.7, 0.05, 430, 25, 0.6, 0.05⟩ ∧
    ((buildStoreDCFSeries ⟨31606.954, 0.7, 0.05, 430, 25, 0.6, 0.05⟩).1.getD (3 - 1)
      defaultStoreDCFRow).avgStoresEff =
      ((buildStoreDCFSeries ⟨31606.954, 0.7, 0.05, 430, 25, 0.6, 0.05⟩).1.getD (3 - 1)
        defaultStoreDCFRow).storesStart +
        (netNewFloor ⟨31606.954, 0.7, 0.05, 430, 25, 0.6, 0.05⟩ / 2) *
          rampClamped ⟨31606.954, 0.7, 0.05, 430, 25, 0.6, 0.05⟩ ∧
    ((buildStoreDCFSeries ⟨31606.954, 0.7, 0.05, 430, 25, 0.6, 0.05⟩).1.getD (3 - 1)
      defaultStoreDCFRow).retailRev_bn =
      matureRetailRevPerEffStore ⟨31606.954, 0.7, 0.05, 430, 25, 0.6, 0.05⟩ *
        ((buildStoreDCFSeries ⟨31606.954, 0.7, 0.05, 430, 25, 0.6, 0.05⟩).1.getD (3 - 1)
          defaultStoreDCFRow).avgStoresEff *
        (1 + sssgClamped ⟨31606.954, 0.7, 0.05, 430, 25, 0.6, 0.05⟩) ^ 3 :=
  store_series_rows ⟨31606.954, 0.7, 0.05, 430, 25, 0.6, 0.05⟩ 3 (by norm_num) (by norm_num)
